import Mathlib

/-!
Verification development for the call-quality-analyser backend.

The definitions below are a shallow embedding of the call processing code:
the scoring engine and coaching generator of
`backend/services/openaiService.js`, and the pipeline orchestrator
`processCallAsync` of the calls controller.  JavaScript numbers are modelled
as exact rationals (`ℚ`); a value that the JavaScript code would compute as
`NaN` (an average over an empty list) is modelled as `none` in an
`Option`-typed field.  External HTTP calls are modelled as `Except`-valued
parameters of the functions that perform them; a thrown JavaScript exception
is an `Except.error`.  Wall-clock durations (`Date.now()` differences) are
abstracted to `0`; they influence no control flow.
-/

namespace CallQuality

/-- `Math.round` on a (non-`NaN`) JavaScript number: round half toward
positive infinity. -/
def jsRound (q : ℚ) : ℤ := ⌊q + 1/2⌋

/-- Comparison `x >= b` where `x` may be `NaN` (`none`); any comparison with
`NaN` is false in JavaScript. -/
def optGeInt (x : Option ℤ) (b : ℤ) : Bool :=
  match x with
  | none => false
  | some v => b ≤ v

/-- Comparison `x >= b` on a possibly-`NaN` rational. -/
def optGeQ (x : Option ℚ) (b : ℚ) : Bool :=
  match x with
  | none => false
  | some v => b ≤ v

/-- Comparison `x > b` on a possibly-`NaN` rational. -/
def optGtQ (x : Option ℚ) (b : ℚ) : Bool :=
  match x with
  | none => false
  | some v => b < v

/-- Comparison `x < b` on a possibly-`NaN` rational. -/
def optLtQ (x : Option ℚ) (b : ℚ) : Bool :=
  match x with
  | none => false
  | some v => v < b

/-- JavaScript `x || d` for a numeric `x` that may be `NaN`/`undefined`
(`none`) or `0` (both falsy). -/
def jsNumOr (x : Option ℤ) (d : ℤ) : ℤ :=
  match x with
  | none => d
  | some v => if v = 0 then d else v

/-- Whitespace test used for `\s` and `trim`. -/
def isWsChar (c : Char) : Bool := c.isWhitespace

/-- `String.prototype.trim` on a character list (leading and trailing
whitespace removed). -/
def trimChars (l : List Char) : List Char :=
  ((l.dropWhile isWsChar).reverse.dropWhile isWsChar).reverse

/-- ASCII lower-casing of one character (`toLowerCase`). -/
def lowerChar (c : Char) : Char :=
  if 65 ≤ c.toNat ∧ c.toNat ≤ 90 then Char.ofNat (c.toNat + 32) else c

/-- `String.prototype.toLowerCase` (ASCII). -/
def lowerStr (s : String) : String := String.mk (s.toList.map lowerChar)

/-- A character matched by the sentence-splitting regex `[.!?]+`. -/
def isSentenceSeparator (c : Char) : Bool := c == '.' || c == '!' || c == '?'

/-- `transcript.split(/[.!?]+/).filter(s => s.trim().length > 0)`.
`List.splitOnP` splits at every separator character, producing an empty
segment between two adjacent separators where the regex `[.!?]+` produces
none; those empty segments are removed by the very same trim-filter, so the
filtered result coincides with the JavaScript one. -/
def sentencesOf (t : String) : List String :=
  ((t.toList.splitOnP isSentenceSeparator).map (fun l => String.mk l)).filter
    (fun s => 0 < (trimChars s.toList).length)

/-- `split(/\s+/)`: split at maximal whitespace runs.  A leading (resp.
trailing) run contributes one leading (resp. trailing) empty segment, and
`"".split(/\s+/)` is `[""]`, exactly as in JavaScript. -/
def jsSplitWhitespace (t : String) : List String :=
  match t.toList with
  | [] => [""]
  | c :: cs =>
      (if isWsChar c then [""] else []) ++
        ((((c :: cs).splitOnP isWsChar).map (fun l => String.mk l)).filter
          (fun s => s != "")) ++
        (if isWsChar ((c :: cs).getLastD c) then [""] else [])

/-- The apostrophe character, for the regex literal containing `i'm`. -/
def apostrophe : Char := Char.ofNat 39

/-- The pattern `i'm` of the introduction regex. -/
def iAmPattern : String := String.mk ['i', apostrophe, 'm']

/-- Case-insensitive substring test: `new RegExp(pattern, 'i').test(t)` for a
pattern without regex metacharacters. -/
def containsPattern (t : String) (pattern : String) : Bool :=
  decide ((lowerStr pattern).toList <:+: (lowerStr t).toList)

/-- `/p1|p2|.../i.test(t)` for alternation of literal patterns. -/
def testAny (t : String) (patterns : List String) : Bool :=
  patterns.any (fun p => containsPattern t p)

/-- Parsed body of one sentiment-service response (the `POSITIVE`/`NEGATIVE`
label scores, each defaulted to `0` when absent, as in the source's
`?.score || 0`). -/
structure SentimentResponse where
  positive : ℚ
  negative : ℚ

/-- Parsed body of one toxicity-service response (the five label scores,
each defaulted to `0` when absent). -/
structure ToxicityResponse where
  toxic : ℚ
  hate : ℚ
  obscene : ℚ
  threat : ℚ
  insult : ℚ

/-- One element of the list built by `analyzeSentiment`. -/
structure SentimentScore where
  sentence : String
  positive : ℚ
  negative : ℚ

/-- One element of the list built by `analyzeToxicity`.  Only the
`politeness` field is ever read downstream; the raw label fields, which the
fallback entries do not even carry, are omitted. -/
structure ToxicityScore where
  sentence : String
  politeness : ℚ

/-- The external classification services consumed by `analyzeCall`: for each
sentence the sentiment (resp. toxicity) HTTP call either returns a parsed
response or throws. -/
structure ScoringEnv where
  sentimentSvc : String → Except String SentimentResponse
  toxicitySvc : String → Except String ToxicityResponse

/-- The `for`-loop body of `analyzeSentiment`: one HTTP call per sentence,
aborting the whole loop on the first thrown error. -/
def collectSentimentScores (svc : String → Except String SentimentResponse) :
    List String → Except String (List SentimentScore)
  | [] => .ok []
  | sentence :: rest =>
      match svc sentence with
      | .error e => .error e
      | .ok r =>
          match collectSentimentScores svc rest with
          | .error e => .error e
          | .ok scores => .ok (⟨sentence, r.positive, r.negative⟩ :: scores)

/-- `analyzeSentiment`: per-sentence external sentiment scores; on any
failure the catch-all returns the fallback `positive = 0.7`,
`negative = 0.3` for every sentence.  The function itself never throws. -/
def analyzeSentiment (svc : String → Except String SentimentResponse)
    (sentences : List String) : Except String (List SentimentScore) :=
  match collectSentimentScores svc sentences with
  | .ok scores => .ok scores
  | .error _ => .ok (sentences.map (fun s => ⟨s, 7/10, 3/10⟩))

/-- The `for`-loop body of `analyzeToxicity`; `politeness` is
`1 - Math.max(toxic, hate, obscene, threat, insult)`. -/
def collectToxicityScores (svc : String → Except String ToxicityResponse) :
    List String → Except String (List ToxicityScore)
  | [] => .ok []
  | sentence :: rest =>
      match svc sentence with
      | .error e => .error e
      | .ok r =>
          match collectToxicityScores svc rest with
          | .error e => .error e
          | .ok scores =>
              .ok (⟨sentence,
                    1 - max r.toxic (max r.hate (max r.obscene (max r.threat r.insult)))⟩
                  :: scores)

/-- `analyzeToxicity`: per-sentence external toxicity scores; on any failure
the catch-all returns the fallback `politeness = 0.8` for every sentence.
The function itself never throws. -/
def analyzeToxicity (svc : String → Except String ToxicityResponse)
    (sentences : List String) : Except String (List ToxicityScore) :=
  match collectToxicityScores svc sentences with
  | .ok scores => .ok scores
  | .error _ => .ok (sentences.map (fun s => ⟨s, 8/10⟩))

/-- `calculateOverallSentiment`: `Math.round(avg(positive) * 100)`; the
average over an empty list is `NaN` (`none`). -/
def calculateOverallSentiment (sentimentScores : List SentimentScore) : Option ℤ :=
  if sentimentScores.length = 0 then none
  else some (jsRound ((sentimentScores.map SentimentScore.positive).sum /
    sentimentScores.length * 100))

/-- `calculateOverallPoliteness`: `Math.round(avg(politeness) * 100)`; the
average over an empty list is `NaN` (`none`). -/
def calculateOverallPoliteness (toxicityScores : List ToxicityScore) : Option ℤ :=
  if toxicityScores.length = 0 then none
  else some (jsRound ((toxicityScores.map ToxicityScore.politeness).sum /
    toxicityScores.length * 100))

/-- `analyzeClarity`: sentence-length heuristic.  The average sentence length
is `NaN` (`none`) when there are no sentences, and every comparison with
`NaN` is false. -/
def analyzeClarity (transcript : String) : ℤ :=
  let sentences := sentencesOf transcript
  let avgSentenceLength : Option ℚ :=
    if sentences.length = 0 then none
    else some ((sentences.map (fun s => ((s.toList.count ' ' + 1 : ℕ) : ℚ))).sum /
      sentences.length)
  let clarityScore : ℤ := 80
  let clarityScore := if optGtQ avgSentenceLength 20 then clarityScore - 10 else clarityScore
  let clarityScore := if optLtQ avgSentenceLength 5 then clarityScore - 15 else clarityScore
  let clarityScore := if sentences.length < 3 then clarityScore - 10 else clarityScore
  max 0 (min 100 clarityScore)

/-- `analyzeEngagement`: vocabulary-richness heuristic.  The word list of
`split(/\s+/)` is never empty, so no `NaN` arises here. -/
def analyzeEngagement (transcript : String) : ℤ :=
  let words := jsSplitWhitespace (lowerStr transcript)
  let uniqueWords := words.dedup
  let vocabularyRichness : ℚ := (uniqueWords.length : ℚ) / (words.length : ℚ)
  let engagementScore : ℤ := 70
  let engagementScore := if (6/10 : ℚ) < vocabularyRichness then engagementScore + 15
    else engagementScore
  let engagementScore := if 50 < words.length then engagementScore + 10 else engagementScore
  let engagementScore := if 100 < words.length then engagementScore + 5 else engagementScore
  min 100 engagementScore

/-- The keyword list of `analyzeRelevance`. -/
def customerServiceKeywords : List String :=
  ["help", "assist", "support", "issue", "problem", "resolve", "fix", "order", "account",
   "service", "customer", "thank", "apologize", "understand", "solution", "process"]

/-- `analyzeRelevance`: share of customer-service keywords among the words. -/
def analyzeRelevance (transcript : String) : ℤ :=
  let words := jsSplitWhitespace (lowerStr transcript)
  let relevantWords := words.filter (fun word => customerServiceKeywords.contains word)
  let relevanceRatio : ℚ := (relevantWords.length : ℚ) / (words.length : ℚ)
  jsRound (relevanceRatio * 100)

/-- `analyzeCallOpening`: greeting/introduction/offer keyword score. -/
def analyzeCallOpening (transcript : String) : ℤ :=
  let hasGreeting := testAny transcript ["hello", "hi", "good", "thank you"]
  let hasIntroduction := testAny transcript ["my name is", iAmPattern, "this is"]
  let hasOffer := testAny transcript ["how can i help", "what can i do", "assist"]
  let score : ℤ := 60
  let score := if hasGreeting then score + 15 else score
  let score := if hasIntroduction then score + 15 else score
  let score := if hasOffer then score + 10 else score
  min 100 score

/-- `analyzeIssueUnderstanding`: issue/understanding/clarification score. -/
def analyzeIssueUnderstanding (transcript : String) : ℤ :=
  let hasIssue := testAny transcript ["issue", "problem", "concern", "matter"]
  let hasUnderstanding := testAny transcript ["understand", "see", "look", "check"]
  let hasClarification := testAny transcript ["clarify", "confirm", "verify"]
  let score : ℤ := 60
  let score := if hasIssue then score + 20 else score
  let score := if hasUnderstanding then score + 15 else score
  let score := if hasClarification then score + 5 else score
  min 100 score

/-- `analyzeResolutionQuality`: resolution/solution/follow-up score. -/
def analyzeResolutionQuality (transcript : String) : ℤ :=
  let hasResolution := testAny transcript ["resolve", "fix", "solve", "address"]
  let hasSolution := testAny transcript ["solution", "answer", "result"]
  let hasFollowUp := testAny transcript ["follow", "check", "ensure", "confirm"]
  let score : ℤ := 60
  let score := if hasResolution then score + 20 else score
  let score := if hasSolution then score + 15 else score
  let score := if hasFollowUp then score + 5 else score
  min 100 score

/-- `getCallOpeningFeedback`. -/
def getCallOpeningFeedback (transcript : String) : String :=
  let score := analyzeCallOpening transcript
  if 85 ≤ score then "Excellent call opening with professional greeting and clear introduction"
  else if 70 ≤ score then "Good call opening, could improve introduction clarity"
  else "Call opening needs improvement - add greeting and clear introduction"

/-- `getIssueUnderstandingFeedback`. -/
def getIssueUnderstandingFeedback (transcript : String) : String :=
  let score := analyzeIssueUnderstanding transcript
  if 85 ≤ score then "Excellent problem identification and understanding"
  else if 70 ≤ score then "Good issue understanding, could improve clarification"
  else "Issue understanding needs work - practice active listening"

/-- `getSentimentFeedback`; the score may be `NaN`, in which case both
threshold tests are false. -/
def getSentimentFeedback (score : Option ℤ) : String :=
  if optGeInt score 85 then "Excellent positive sentiment throughout the call"
  else if optGeInt score 70 then "Good sentiment, maintain positive tone"
  else "Sentiment needs improvement - focus on positive language"

/-- `getPolitenessFeedback`. -/
def getPolitenessFeedback (score : Option ℤ) : String :=
  if optGeInt score 85 then "Excellent politeness and professional tone"
  else if optGeInt score 70 then "Good politeness, maintain professional language"
  else "Politeness needs improvement - avoid negative language"

/-- `getClarityFeedback`. -/
def getClarityFeedback (score : ℤ) : String :=
  if 85 ≤ score then "Excellent clarity and coherent communication"
  else if 70 ≤ score then "Good clarity, could improve sentence structure"
  else "Clarity needs improvement - use shorter, clearer sentences"

/-- `getEngagementFeedback`. -/
def getEngagementFeedback (score : ℤ) : String :=
  if 85 ≤ score then "Excellent engagement with rich vocabulary"
  else if 70 ≤ score then "Good engagement, could expand vocabulary"
  else "Engagement needs improvement - use more descriptive language"

/-- `getRelevanceFeedback`. -/
def getRelevanceFeedback (score : ℤ) : String :=
  if 85 ≤ score then "Excellent topic relevance throughout the call"
  else if 70 ≤ score then "Good relevance, stay focused on customer needs"
  else "Relevance needs improvement - stay on topic"

/-- `getCSATFeedback`: banding of `(sentiment + politeness + relevance) / 3`;
`NaN` inputs make both threshold tests false. -/
def getCSATFeedback (sentiment politeness : Option ℤ) (relevance : ℤ) : String :=
  let avgScore : Option ℚ :=
    match sentiment, politeness with
    | some s, some p => some (((s + p + relevance : ℤ) : ℚ) / 3)
    | _, _ => none
  if optGeQ avgScore 85 then "Excellent customer satisfaction potential"
  else if optGeQ avgScore 70 then "Good customer satisfaction, maintain quality"
  else "Customer satisfaction needs improvement"

/-- `getResolutionFeedback`. -/
def getResolutionFeedback (transcript : String) : String :=
  let score := analyzeResolutionQuality transcript
  if 85 ≤ score then "Excellent problem resolution and follow-up"
  else if 70 ≤ score then "Good resolution, could improve follow-up"
  else "Resolution quality needs improvement - provide clear solutions"

/-- `extractKeyPoints`. -/
def extractKeyPoints (transcript : String) : List String :=
  let keyPoints :=
    (if testAny transcript ["hello", "greeting"] then ["Professional greeting"] else []) ++
    (if testAny transcript ["issue", "problem"] then ["Problem identification"] else []) ++
    (if testAny transcript ["understand", "clarify"] then ["Active listening"] else []) ++
    (if testAny transcript ["resolve", "fix"] then ["Problem resolution"] else []) ++
    (if testAny transcript ["thank", "appreciate"] then ["Gratitude expressed"] else [])
  if 0 < keyPoints.length then keyPoints else ["Customer service interaction"]

/-- `identifyIssues` (the `sentimentScores` parameter is unused in the
source as well). -/
def identifyIssues (_sentimentScores : List SentimentScore)
    (toxicityScores : List ToxicityScore)
    (clarityScore engagementScore relevanceScore : ℤ) : List String :=
  (if clarityScore < 70 then ["Communication clarity needs improvement"] else []) ++
  (if engagementScore < 70 then ["Engagement level could be higher"] else []) ++
  (if relevanceScore < 70 then ["Stay more focused on customer needs"] else []) ++
  (if toxicityScores.any (fun s => decide (s.politeness < (7/10 : ℚ)))
    then ["Language politeness needs attention"] else [])

/-- `generateRecommendations`. -/
def generateRecommendations (_sentimentScores : List SentimentScore)
    (toxicityScores : List ToxicityScore)
    (clarityScore engagementScore relevanceScore : ℤ) : List String :=
  let recommendations :=
    (if clarityScore < 70 then ["Practice clear, concise communication"] else []) ++
    (if engagementScore < 70 then ["Expand vocabulary and be more descriptive"] else []) ++
    (if relevanceScore < 70 then ["Stay focused on customer issues"] else []) ++
    (if toxicityScores.any (fun s => decide (s.politeness < (7/10 : ℚ)))
      then ["Use more polite and professional language"] else [])
  if 0 < recommendations.length then recommendations
  else ["Continue current good practices"]

/-- The nine metric values of an analysis; `sentimentAnalysis`, `politeness`
and the derived `csatScore` are `NaN` (`none`) when the transcript has no
sentences. -/
structure CallMetrics where
  callOpening : ℤ
  issueUnderstanding : ℤ
  sentimentAnalysis : Option ℤ
  politeness : Option ℤ
  clarity : ℤ
  engagement : ℤ
  relevance : ℤ
  csatScore : Option ℤ
  resolutionQuality : ℤ

/-- The per-metric feedback strings of an analysis. -/
structure CallFeedback where
  callOpening : String
  issueUnderstanding : String
  sentimentAnalysis : String
  politeness : String
  clarity : String
  engagement : String
  relevance : String
  csatScore : String
  resolutionQuality : String

/-- The analysis object returned by `analyzeCall`. -/
structure AnalysisResult where
  overallScore : Option ℤ
  metrics : CallMetrics
  feedback : CallFeedback
  keyPoints : List String
  issues : List String
  recommendations : List String

/-- `analyzeCall`: the full scoring pipeline over one transcript.  The outer
try/catch re-throws with an `Analysis failed:` prefix, which is only
reachable if one of the awaited sub-calls throws. -/
def analyzeCall (env : ScoringEnv) (transcript : String) :
    Except String AnalysisResult :=
  let sentences := sentencesOf transcript
  match analyzeSentiment env.sentimentSvc (sentences.take 3) with
  | .error e => .error ("Analysis failed: " ++ e)
  | .ok sentimentScores =>
  match analyzeToxicity env.toxicitySvc (sentences.take 3) with
  | .error e => .error ("Analysis failed: " ++ e)
  | .ok toxicityScores =>
    let clarityScore := analyzeClarity transcript
    let engagementScore := analyzeEngagement transcript
    let relevanceScore := analyzeRelevance transcript
    let overallSentiment := calculateOverallSentiment sentimentScores
    let overallPoliteness := calculateOverallPoliteness toxicityScores
    .ok
      { overallScore :=
          (match overallSentiment, overallPoliteness with
           | some s, some p =>
               some (jsRound (((s + p + clarityScore + engagementScore +
                 relevanceScore : ℤ) : ℚ) / 5))
           | _, _ => none)
        metrics :=
          { callOpening := analyzeCallOpening transcript
            issueUnderstanding := analyzeIssueUnderstanding transcript
            sentimentAnalysis := overallSentiment
            politeness := overallPoliteness
            clarity := clarityScore
            engagement := engagementScore
            relevance := relevanceScore
            csatScore :=
              (match overallSentiment, overallPoliteness with
               | some s, some p =>
                   some (jsRound (((s + p + relevanceScore : ℤ) : ℚ) / 3))
               | _, _ => none)
            resolutionQuality := analyzeResolutionQuality transcript }
        feedback :=
          { callOpening := getCallOpeningFeedback transcript
            issueUnderstanding := getIssueUnderstandingFeedback transcript
            sentimentAnalysis := getSentimentFeedback overallSentiment
            politeness := getPolitenessFeedback overallPoliteness
            clarity := getClarityFeedback clarityScore
            engagement := getEngagementFeedback engagementScore
            relevance := getRelevanceFeedback relevanceScore
            csatScore := getCSATFeedback overallSentiment overallPoliteness relevanceScore
            resolutionQuality := getResolutionFeedback transcript }
        keyPoints := extractKeyPoints transcript
        issues := identifyIssues sentimentScores toxicityScores clarityScore
          engagementScore relevanceScore
        recommendations := generateRecommendations sentimentScores toxicityScores
          clarityScore engagementScore relevanceScore }

/-- One recommendation object of a coaching plan. -/
structure Recommendation where
  category : String
  title : String
  description : String
  priority : String

/-- One resource object of a coaching plan. -/
structure Resource where
  type : String
  title : String
  description : String
  url : String

/-- One quiz object of a coaching plan. -/
structure QuizItem where
  question : String
  options : List String
  correctAnswer : ℕ
  explanation : String

/-- The coaching plan returned by the coaching generator. -/
structure CoachingPlan where
  feedback : String
  recommendations : List Recommendation
  resources : List Resource
  quiz : List QuizItem
  completionCriteria : String

/-- `generateCoachingPlanFromAnalysis`: deterministic structured plan.  Only
`analysis.overallScore` is read (through the falsy-defaulting
`analysis.overallScore || 75`); the `transcript` parameter is unused in the
source as well.  The trailing `Array.isArray` self-checks of the source can
never fire (the three fields are array literals) and are not modelled. -/
def generateCoachingPlanFromAnalysis (analysis : AnalysisResult)
    (_transcript : String) : CoachingPlan :=
  let overallScore := jsNumOr analysis.overallScore 75
  let feedback :=
    if 85 ≤ overallScore then "Excellent performance! Keep up the great work."
    else if 70 ≤ overallScore then "Good performance with specific areas for improvement."
    else "Performance needs improvement. Focus on the recommendations below."
  { feedback := feedback
    recommendations :=
      [{ category := "Communication"
         title := "Improve Active Listening"
         description := "Practice active listening techniques to better understand customer needs"
         priority := "high" },
       { category := "Professionalism"
         title := "Enhance Greeting Skills"
         description := "Work on creating more welcoming and professional call openings"
         priority := "medium" },
       { category := "Problem Solving"
         title := "Better Issue Resolution"
         description := "Improve problem identification and resolution techniques"
         priority := "high" }]
    resources :=
      [{ type := "video"
         title := "Active Listening Techniques"
         description := "Learn effective active listening skills"
         url := "https://www.youtube.com/watch?v=WzZNuQwQoQY" },
       { type := "article"
         title := "Customer Service Best Practices"
         description := "Essential tips for excellent customer service"
         url := "https://www.zendesk.com/blog/customer-service-best-practices/" }]
    quiz :=
      [{ question := "What is the most important aspect of call opening?"
         options := ["Speed", "Professional greeting", "Getting to the point", "Asking questions"]
         correctAnswer := 1
         explanation := "A professional greeting sets the tone for the entire call" },
       { question := "How should you handle an angry customer?"
         options := ["Hang up", "Listen actively and empathize", "Argue back", "Transfer immediately"]
         correctAnswer := 1
         explanation := "Active listening and empathy help de-escalate situations" }]
    completionCriteria := "Complete all recommendations and score 80% or higher on the quiz" }

/-- `generateCoachingPlan`: tries the external generative call first, but in
both the success branch and the catch branch it returns the structured
locally computed plan; the generative response is discarded. -/
def generateCoachingPlan (generativeCall : Except String String)
    (analysis : AnalysisResult) (transcript : String) : Except String CoachingPlan :=
  match generativeCall with
  | .ok _ => .ok (generateCoachingPlanFromAnalysis analysis transcript)
  | .error _ => .ok (generateCoachingPlanFromAnalysis analysis transcript)

/-- One time-aligned segment of a transcription (the source's `start`/`end`
fields are named `startSec`/`endSec` because `end` is reserved). -/
structure TranscriptSegment where
  startSec : ℕ
  endSec : ℕ
  text : String
  speaker : String

/-- The transcription object produced by `transcribeAudio`. -/
structure Transcription where
  text : String
  segments : List TranscriptSegment
  language : String
  duration : ℕ
  confidence : ℚ

/-- The message of the error thrown by `transcribeAudio` on failure,
depending on the HTTP status of the failed request. -/
def transcriptionErrorMessage (httpStatus : ℕ) : String :=
  "Transcription failed: " ++
    (if httpStatus = 404 then "Model not found" else "Service unavailable")

/-- `transcribeAudio`: the external speech-to-text call either yields the
transcript text or fails with an HTTP status; on success the fixed
segment/language/duration/confidence wrapper is built, on failure an error
is thrown. -/
def transcribeAudio (whisper : Except ℕ String) : Except String Transcription :=
  match whisper with
  | .ok transcript => .ok ⟨transcript, [⟨0, 30, transcript, "agent"⟩], "en", 45, 9/10⟩
  | .error httpStatus => .error (transcriptionErrorMessage httpStatus)

/-- `JSON.stringify` of a string (escaping of special characters inside the
string is not modelled; no persisted value here contains any). -/
def jsonString (s : String) : String := "\"" ++ s ++ "\""

/-- `JSON.stringify` of an array given its already-stringified elements. -/
def jsonArray (elems : List String) : String :=
  "[" ++ String.intercalate "," elems ++ "]"

/-- `JSON.stringify` of one recommendation object. -/
def jsonOfRecommendation (r : Recommendation) : String :=
  "\x7b\"category\":" ++ jsonString r.category ++ ",\"title\":" ++ jsonString r.title ++
    ",\"description\":" ++ jsonString r.description ++ ",\"priority\":" ++
    jsonString r.priority ++ "\x7d"

/-- `JSON.stringify` of one resource object. -/
def jsonOfResource (r : Resource) : String :=
  "\x7b\"type\":" ++ jsonString r.type ++ ",\"title\":" ++ jsonString r.title ++
    ",\"description\":" ++ jsonString r.description ++ ",\"url\":" ++
    jsonString r.url ++ "\x7d"

/-- `JSON.stringify` of one quiz object. -/
def jsonOfQuizItem (q : QuizItem) : String :=
  "\x7b\"question\":" ++ jsonString q.question ++ ",\"options\":" ++
    jsonArray (q.options.map jsonString) ++ ",\"correctAnswer\":" ++
    toString q.correctAnswer ++ ",\"explanation\":" ++ jsonString q.explanation ++ "\x7d"

/-- The `coachingPlan` subdocument as persisted on the Call record: the three
lists are stored `JSON.stringify`-ed to avoid document-store casting issues. -/
structure StoredCoachingPlan where
  generated : Bool
  feedback : String
  recommendations : String
  resources : String
  quiz : String
  completionCriteria : String

/-- One `processingHistory` entry `{step, status, message, duration, error?}`;
`hasError` records whether an error payload was attached, and the timestamp
is abstracted away. -/
structure HistoryEntry where
  step : String
  status : String
  message : String
  duration : ℕ
  hasError : Bool

/-- The Call record's `error` field `{message, code, step, retryCount}` (the
timestamp is abstracted away). -/
structure CallError where
  message : String
  code : String
  step : String
  retryCount : ℕ

/-- The Call record's per-stage `performance` timing fields. -/
structure PerfMetrics where
  transcriptionTime : Option ℕ
  analysisTime : Option ℕ
  coachingTime : Option ℕ
  processingTime : Option ℕ

/-- The pipeline-relevant persisted state of one Call record. -/
structure CallState where
  status : String
  transcript : Option Transcription
  analysis : Option AnalysisResult
  coachingPlan : StoredCoachingPlan
  processingHistory : List HistoryEntry
  error : Option CallError
  performance : PerfMetrics
  duration : ℕ

/-- One event emitted to the socket room of the call (the result payloads
attached to some success events — transcript text, analysis, coaching plan —
are not observed by any claim and are elided). -/
structure SocketEvent where
  topic : String
  status : String
  message : String
  progress : Option ℕ
  errorInfo : Option String

/-- Modelled from the spec: the Call model file (`models/Call.js`) is not
part of the provided sources; per §3 of the specification,
`processingHistory` is an append-only ordered sequence of stage-transition
records `{step, status, message, timestamp, duration, error?}`, so the
model method `addProcessingStep(step, status, message, duration, error?)`
appends one such record (and persists the document) without touching any
other field. -/
def addProcessingStep (c : CallState) (step status message : String)
    (duration : ℕ) (hasError : Bool) : CallState :=
  { c with processingHistory :=
      c.processingHistory ++ [⟨step, status, message, duration, hasError⟩] }

/-- The socket room for one call: `` `call-${callId}` ``. -/
def callTopic (callId : String) : String := "call-" ++ callId

/-- Appends the status value persisted by one `save`/`updateOne` to the log
of persisted statuses. -/
def persistStatus (c : CallState) (log : List String) : List String :=
  log ++ [c.status]

/-- The catch block of `processCallAsync` (lines 591-618): append a
`failed` history entry carrying the error, set `status = 'error'`, overwrite
the `error` field with `retryCount = (call.error?.retryCount || 0) + 1`,
save, and emit an `error` event to the call room.  Returns the resulting
state, the statuses persisted by the block's two saves, and the emitted
events. -/
def handleFailure (c : CallState) (callId : String) (msg : String) :
    CallState × List String × List SocketEvent :=
  let c1 := addProcessingStep c "error" "failed" msg 0 true
  let c2 :=
    { c1 with
      status := "error"
      error := some
        { message := msg
          code := "PROCESSING_ERROR"
          step := "processing"
          retryCount := (match c.error with | none => 0 | some e => e.retryCount) + 1 } }
  (c2, [c1.status, "error"],
    [⟨callTopic callId, "error", "Processing failed: " ++ msg, none, some msg⟩])

/-- The external dependencies of one pipeline run: the speech-to-text call
(either the transcript text or a failing HTTP status), the per-sentence
scoring services, and the generative coaching call. -/
structure PipelineEnv where
  whisper : Except ℕ String
  scoring : ScoringEnv
  coachingGen : Except String String

/-- `processCallAsync`: the pipeline orchestrator.  It drives the Call
record through transcription, analysis and coaching-plan generation,
persisting after every mutation and emitting progress events; any stage
failure is handled by the catch block (`handleFailure`).  Returns the final
persisted state, the sequence of statuses persisted by each save, and the
emitted events, in order. -/
def processCallAsync (env : PipelineEnv) (init : CallState) (callId : String) :
    CallState × List String × List SocketEvent :=
  let c0 := addProcessingStep init "upload" "completed" "File uploaded successfully" 0 false
  let log := persistStatus c0 []
  let n0 : SocketEvent := ⟨callTopic callId, "uploaded", "Call uploaded successfully", none, none⟩
  let c1 := { c0 with status := "transcribing" }
  let log := persistStatus c1 log
  let c1 := addProcessingStep c1 "transcribe" "started" "Starting transcription" 0 false
  let log := persistStatus c1 log
  let n1 : SocketEvent :=
    ⟨callTopic callId, "transcribing", "Transcribing audio...", some 33, none⟩
  match transcribeAudio env.whisper with
  | .error msg =>
      let r := handleFailure c1 callId msg
      (r.1, log ++ r.2.1, [n0, n1] ++ r.2.2)
  | .ok transcription =>
  let c2 :=
    { c1 with
      transcript := some transcription
      duration := transcription.duration
      status := "transcribed"
      performance := { c1.performance with transcriptionTime := some 0 } }
  let log := persistStatus c2 log
  let c2 := addProcessingStep c2 "transcribe" "completed"
    "Transcription completed successfully" 0 false
  let log := persistStatus c2 log
  let n2 : SocketEvent :=
    ⟨callTopic callId, "transcribed", "Transcription completed", some 66, none⟩
  let c3 := { c2 with status := "analyzing" }
  let log := persistStatus c3 log
  let c3 := addProcessingStep c3 "analyze" "started" "Starting analysis" 0 false
  let log := persistStatus c3 log
  let n3 : SocketEvent := ⟨callTopic callId, "analyzing", "Analyzing call...", some 80, none⟩
  match analyzeCall env.scoring transcription.text with
  | .error msg =>
      let r := handleFailure c3 callId msg
      (r.1, log ++ r.2.1, [n0, n1, n2, n3] ++ r.2.2)
  | .ok analysis =>
  let c4 :=
    { c3 with
      analysis := some analysis
      status := "analyzed"
      performance := { c3.performance with analysisTime := some 0 } }
  let log := persistStatus c4 log
  let c4 := addProcessingStep c4 "analyze" "completed" "Analysis completed successfully" 0 false
  let log := persistStatus c4 log
  let n4 : SocketEvent := ⟨callTopic callId, "analyzed", "Analysis completed", some 90, none⟩
  let c5 := addProcessingStep c4 "coaching" "started" "Starting coaching plan generation" 0 false
  let log := persistStatus c5 log
  let n5 : SocketEvent :=
    ⟨callTopic callId, "generating-coaching", "Generating coaching plan...", some 95, none⟩
  match generateCoachingPlan env.coachingGen analysis transcription.text with
  | .error msg =>
      let r := handleFailure c5 callId msg
      (r.1, log ++ r.2.1, [n0, n1, n2, n3, n4, n5] ++ r.2.2)
  | .ok coachingPlan =>
  let c6 :=
    { c5 with
      coachingPlan :=
        { generated := true
          feedback := coachingPlan.feedback
          recommendations := jsonArray (coachingPlan.recommendations.map jsonOfRecommendation)
          resources := jsonArray (coachingPlan.resources.map jsonOfResource)
          quiz := jsonArray (coachingPlan.quiz.map jsonOfQuizItem)
          completionCriteria := coachingPlan.completionCriteria } }
  let log := persistStatus c6 log
  let c6 := addProcessingStep c6 "coaching" "completed"
    "Coaching plan generated successfully" 0 false
  let log := persistStatus c6 log
  let c7 :=
    { c6 with
      status := "completed"
      performance := { c6.performance with processingTime := some 0, coachingTime := some 0 } }
  let log := persistStatus c7 log
  let n6 : SocketEvent :=
    ⟨callTopic callId, "completed", "Call processing completed successfully", some 100, none⟩
  (c7, log, [n0, n1, n2, n3, n4, n5, n6])

/-- The sequence of distinct persisted `status` values of one run: the
initial status followed by the statuses of each save, with consecutive
repetitions collapsed. -/
def statusTrace (env : PipelineEnv) (init : CallState) (callId : String) : List String :=
  List.destutter (· ≠ ·) (init.status :: (processCallAsync env init callId).2.1)

/-- The stage order stated by the spec: position of a status in
`uploaded → transcribing → transcribed → analyzing → analyzed →
generating-coaching → completed`. -/
def stageIndex (s : String) : Option ℕ :=
  if s = "uploaded" then some 0
  else if s = "transcribing" then some 1
  else if s = "transcribed" then some 2
  else if s = "analyzing" then some 3
  else if s = "analyzed" then some 4
  else if s = "generating-coaching" then some 5
  else if s = "completed" then some 6
  else none

/-- One transition as the claim states it: to the immediately next stage of
the spec's sequence, or to `error`. -/
def specAdjacentStep (a b : String) : Bool :=
  b == "error" ||
    (match stageIndex a, stageIndex b with
     | some i, some j => j == i + 1
     | _, _ => false)

/-- One transition of the amended statement: strictly forward in the stage
order (never revisiting a stage), or to `error`. -/
def specForwardStep (a b : String) : Bool :=
  b == "error" ||
    (match stageIndex a, stageIndex b with
     | some i, some j => i < j
     | _, _ => false)

/-- All consecutive pairs of a list satisfy `p`. -/
def chainOk (p : String → String → Bool) : List String → Bool
  | [] => true
  | [_] => true
  | a :: b :: rest => p a b && chainOk p (b :: rest)

/-! Helper lemmas about the embedded operations. -/

theorem analyzeSentiment_ok (svc : String → Except String SentimentResponse)
    (sentences : List String) : ∃ l, analyzeSentiment svc sentences = Except.ok l := by
  unfold analyzeSentiment
  rcases collectSentimentScores svc sentences with e | scores
  · exact ⟨_, rfl⟩
  · exact ⟨_, rfl⟩

theorem analyzeToxicity_ok (svc : String → Except String ToxicityResponse)
    (sentences : List String) : ∃ l, analyzeToxicity svc sentences = Except.ok l := by
  unfold analyzeToxicity
  rcases collectToxicityScores svc sentences with e | scores
  · exact ⟨_, rfl⟩
  · exact ⟨_, rfl⟩

theorem analyzeCall_ok (env : ScoringEnv) (t : String) :
    ∃ a, analyzeCall env t = Except.ok a := by
  obtain ⟨l1, h1⟩ := analyzeSentiment_ok env.sentimentSvc ((sentencesOf t).take 3)
  obtain ⟨l2, h2⟩ := analyzeToxicity_ok env.toxicitySvc ((sentencesOf t).take 3)
  simp only [analyzeCall, h1, h2]
  exact ⟨_, rfl⟩

theorem generateCoachingPlan_eq (gen : Except String String) (a : AnalysisResult)
    (t : String) : generateCoachingPlan gen a t =
      Except.ok (generateCoachingPlanFromAnalysis a t) := by
  cases gen <;> rfl

/-- The persisted-status log of a run whose transcription call succeeds. -/
theorem processWrites_of_whisper_ok (env : PipelineEnv) (init : CallState)
    (callId text : String) (h : env.whisper = .ok text) :
    (processCallAsync env init callId).2.1 =
      [init.status, "transcribing", "transcribing", "transcribed", "transcribed",
       "analyzing", "analyzing", "analyzed", "analyzed", "analyzed", "analyzed",
       "analyzed", "completed"] := by
  obtain ⟨a, ha⟩ := analyzeCall_ok env.scoring text
  simp [processCallAsync, transcribeAudio, h, ha, generateCoachingPlan_eq,
    persistStatus, addProcessingStep, handleFailure]

/-- The persisted-status log of a run whose transcription call fails. -/
theorem processWrites_of_whisper_error (env : PipelineEnv) (init : CallState)
    (callId : String) (code : ℕ) (h : env.whisper = .error code) :
    (processCallAsync env init callId).2.1 =
      [init.status, "transcribing", "transcribing", "transcribing", "error"] := by
  simp [processCallAsync, transcribeAudio, h, persistStatus, addProcessingStep,
    handleFailure]

/-- Sum of the positive scores of the fallback sentiment list. -/
theorem fallbackSentimentSum (l : List String) :
    ((l.map (fun s => (⟨s, 7/10, 3/10⟩ : SentimentScore))).map
      SentimentScore.positive).sum = l.length * (7/10) := by
  induction l with
  | nil => simp
  | cons x xs ih =>
      simp only [List.map_cons, List.sum_cons, List.length_cons, ih]
      push_cast
      ring

/-- Sum of the politeness scores of the fallback toxicity list. -/
theorem fallbackPolitenessSum (l : List String) :
    ((l.map (fun s => (⟨s, 8/10⟩ : ToxicityScore))).map
      ToxicityScore.politeness).sum = l.length * (8/10) := by
  induction l with
  | nil => simp
  | cons x xs ih =>
      simp only [List.map_cons, List.sum_cons, List.length_cons, ih]
      push_cast
      ring

/-- The per-sentence fallback sentiment scores average to exactly 70. -/
theorem calculateOverallSentiment_fallback (l : List String) (hl : l ≠ []) :
    calculateOverallSentiment (l.map (fun s => ⟨s, 7/10, 3/10⟩)) = some 70 := by
  have hn0 : l.length ≠ 0 := fun h0 => hl (List.length_eq_zero.mp h0)
  have hn : (l.length : ℚ) ≠ 0 := Nat.cast_ne_zero.mpr hn0
  unfold calculateOverallSentiment
  simp only [List.length_map]
  rw [if_neg hn0, fallbackSentimentSum]
  have harith : (l.length : ℚ) * (7/10) / l.length * 100 = 70 := by
    field_simp
    ring
  rw [harith]
  norm_num [jsRound]

/-- The per-sentence fallback toxicity scores average to exactly 80. -/
theorem calculateOverallPoliteness_fallback (l : List String) (hl : l ≠ []) :
    calculateOverallPoliteness (l.map (fun s => ⟨s, 8/10⟩)) = some 80 := by
  have hn0 : l.length ≠ 0 := fun h0 => hl (List.length_eq_zero.mp h0)
  have hn : (l.length : ℚ) ≠ 0 := Nat.cast_ne_zero.mpr hn0
  unfold calculateOverallPoliteness
  simp only [List.length_map]
  rw [if_neg hn0, fallbackPolitenessSum]
  have harith : (l.length : ℚ) * (8/10) / l.length * 100 = 80 := by
    field_simp
    ring
  rw [harith]
  norm_num [jsRound]

/-! Concrete inputs used by the witnesses and counterexamples. -/

/-- A sentiment service whose every call fails. -/
def failingSentimentSvc : String → Except String SentimentResponse :=
  fun _ => .error "Request failed"

/-- A toxicity service whose every call fails. -/
def failingToxicitySvc : String → Except String ToxicityResponse :=
  fun _ => .error "Request failed"

/-- A scoring environment in which both external classifiers are down. -/
def failScoringEnv : ScoringEnv := ⟨failingSentimentSvc, failingToxicitySvc⟩

/-- A pipeline environment whose every external call succeeds except the
(sub-service) classifiers, which degrade to fallbacks. -/
def okPipelineEnv : PipelineEnv := ⟨.ok "Hi. Ok.", failScoringEnv, .ok "generated text"⟩

/-- A pipeline environment whose speech-to-text call fails with HTTP 500. -/
def errorPipelineEnv : PipelineEnv := ⟨.error 500, failScoringEnv, .ok "generated text"⟩

/-- A freshly uploaded Call record, as created by the upload handler. -/
def initialCall : CallState :=
  ⟨"uploaded", none, none, ⟨false, "", "", "", "", ""⟩, [], none,
    ⟨none, none, none, none⟩, 0⟩

/-- Metrics of a hand-written sample analysis. -/
def blankMetrics : CallMetrics := ⟨60, 60, none, none, 70, 70, 0, none, 60⟩

/-- Feedback of a hand-written sample analysis. -/
def blankFeedback : CallFeedback := ⟨"", "", "", "", "", "", "", "", ""⟩

/-- A sample analysis with overall score 90. -/
def sampleAnalysisHigh : AnalysisResult :=
  ⟨some 90, blankMetrics, blankFeedback, [], [], []⟩

/-- A second sample analysis with overall score 90 but different metrics,
feedback and key points. -/
def sampleAnalysisHighVariant : AnalysisResult :=
  ⟨some 90, ⟨95, 95, some 90, some 90, 95, 95, 95, some 90, 95⟩, blankFeedback,
    ["Professional greeting"], ["none"], ["keep going"]⟩

/-- A sample analysis with overall score exactly 0. -/
def sampleAnalysisZero : AnalysisResult :=
  ⟨some 0, blankMetrics, blankFeedback, [], [], []⟩

/-- The analysis produced on a two-sentence transcript when both external
classifiers fail (used as the concrete input of several witnesses). -/
def fallbackSampleResult : AnalysisResult :=
  match analyzeCall failScoringEnv "Hi. Ok." with
  | .ok a => a
  | .error _ => ⟨none, blankMetrics, blankFeedback, [], [], []⟩

/-- C2: for every analysis produced by `analyzeCall`, the returned
`overallScore` equals the rounded mean of the five reported metric values
`sentimentAnalysis`, `politeness`, `clarity`, `engagement` and `relevance`,
exactly; `callOpening`, `issueUnderstanding`, `csatScore` and
`resolutionQuality` do not enter this aggregate. -/
theorem c2_overall_score_formula (env : ScoringEnv) (t : String) (a : AnalysisResult)
    (s p : ℤ) (ha : analyzeCall env t = Except.ok a)
    (hs : a.metrics.sentimentAnalysis = some s)
    (hp : a.metrics.politeness = some p) :
    a.overallScore = some (jsRound (((s + p + a.metrics.clarity + a.metrics.engagement +
      a.metrics.relevance : ℤ) : ℚ) / 5)) := by
  obtain ⟨l1, h1⟩ := analyzeSentiment_ok env.sentimentSvc ((sentencesOf t).take 3)
  obtain ⟨l2, h2⟩ := analyzeToxicity_ok env.toxicitySvc ((sentencesOf t).take 3)
  simp only [analyzeCall, h1, h2, Except.ok.injEq] at ha
  subst ha
  simp only [] at hs hp ⊢
  rw [hs, hp]

/-- Witness for C2 at a concrete transcript and failing classifiers. -/
theorem c2_witness :
    analyzeCall failScoringEnv "Hi. Ok." = Except.ok fallbackSampleResult ∧
    fallbackSampleResult.metrics.sentimentAnalysis = some 70 ∧
    fallbackSampleResult.metrics.politeness = some 80 ∧
    fallbackSampleResult.overallScore = some (jsRound (((70 + 80 +
      fallbackSampleResult.metrics.clarity + fallbackSampleResult.metrics.engagement +
      fallbackSampleResult.metrics.relevance : ℤ) : ℚ) / 5)) := by
  have h1 : analyzeCall failScoringEnv "Hi. Ok." = Except.ok fallbackSampleResult := by
    with_unfolding_all rfl
  have h2 : fallbackSampleResult.metrics.sentimentAnalysis = some 70 := by
    with_unfolding_all rfl
  have h3 : fallbackSampleResult.metrics.politeness = some 80 := by
    with_unfolding_all rfl
  exact ⟨h1, h2, h3,
    c2_overall_score_formula failScoringEnv "Hi. Ok." fallbackSampleResult 70 80 h1 h2 h3⟩

/-- C8: for every analysis produced by `analyzeCall`, the returned
`csatScore` equals the rounded mean of the reported `sentimentAnalysis`,
`politeness` and `relevance` metric values, exactly. -/
theorem c8_csat_score_formula (env : ScoringEnv) (t : String) (a : AnalysisResult)
    (s p : ℤ) (ha : analyzeCall env t = Except.ok a)
    (hs : a.metrics.sentimentAnalysis = some s)
    (hp : a.metrics.politeness = some p) :
    a.metrics.csatScore =
      some (jsRound (((s + p + a.metrics.relevance : ℤ) : ℚ) / 3)) := by
  obtain ⟨l1, h1⟩ := analyzeSentiment_ok env.sentimentSvc ((sentencesOf t).take 3)
  obtain ⟨l2, h2⟩ := analyzeToxicity_ok env.toxicitySvc ((sentencesOf t).take 3)
  simp only [analyzeCall, h1, h2, Except.ok.injEq] at ha
  subst ha
  simp only [] at hs hp ⊢
  rw [hs, hp]

/-- Witness for C8 at a concrete transcript and failing classifiers. -/
theorem c8_witness :
    analyzeCall failScoringEnv "Hi. Ok." = Except.ok fallbackSampleResult ∧
    fallbackSampleResult.metrics.csatScore = some (jsRound (((70 + 80 +
      fallbackSampleResult.metrics.relevance : ℤ) : ℚ) / 3)) := by
  have h1 : analyzeCall failScoringEnv "Hi. Ok." = Except.ok fallbackSampleResult := by
    with_unfolding_all rfl
  have h2 : fallbackSampleResult.metrics.sentimentAnalysis = some 70 := by
    with_unfolding_all rfl
  have h3 : fallbackSampleResult.metrics.politeness = some 80 := by
    with_unfolding_all rfl
  exact ⟨h1,
    c8_csat_score_formula failScoringEnv "Hi. Ok." fallbackSampleResult 70 80 h1 h2 h3⟩

/-- C6 (amended): `analyzeCall` never throws for any string transcript —
empty transcripts included; validation does not exist in the code, and
external-service failures degrade to fallbacks inside the callees. -/
theorem c6_never_throws (env : ScoringEnv) (t : String) :
    ∃ a, analyzeCall env t = Except.ok a :=
  analyzeCall_ok env t

/-- Counterexample to C6 as stated: on the empty transcript `analyzeCall`
returns normally instead of throwing. -/
theorem c6_counterexample :
    (analyzeCall failScoringEnv "").map (fun _ => "returned normally") =
      Except.ok "returned normally" := by
  with_unfolding_all rfl

/-- C5: `generateCoachingPlan` returns exactly the structured locally
computed plan of `generateCoachingPlanFromAnalysis` whether the external
generative call succeeds or fails, and that plan's `recommendations`,
`resources` and `quiz` are non-empty. -/
theorem c5_coaching_plan_refinement (gen : Except String String) (a : AnalysisResult)
    (t : String) :
    generateCoachingPlan gen a t = Except.ok (generateCoachingPlanFromAnalysis a t) ∧
    (generateCoachingPlanFromAnalysis a t).recommendations ≠ [] ∧
    (generateCoachingPlanFromAnalysis a t).resources ≠ [] ∧
    (generateCoachingPlanFromAnalysis a t).quiz ≠ [] := by
  refine ⟨generateCoachingPlan_eq gen a t, ?_, ?_, ?_⟩ <;>
    simp [generateCoachingPlanFromAnalysis]

/-- C9: `generateCoachingPlanFromAnalysis` depends only on
`analysis.overallScore`; the transcript and all other analysis fields have
no influence, and the returned recommendations (3), resources (2), quiz (2)
and completion criteria are the same fixed constants for all inputs. -/
theorem c9_coaching_score_noninterference (a1 : AnalysisResult) (t1 : String)
    (a2 : AnalysisResult) (t2 : String) (h : a1.overallScore = a2.overallScore) :
    generateCoachingPlanFromAnalysis a1 t1 = generateCoachingPlanFromAnalysis a2 t2 ∧
    (generateCoachingPlanFromAnalysis a1 t1).recommendations.length = 3 ∧
    (generateCoachingPlanFromAnalysis a1 t1).resources.length = 2 ∧
    (generateCoachingPlanFromAnalysis a1 t1).quiz.length = 2 ∧
    (∀ a3 t3,
      (generateCoachingPlanFromAnalysis a3 t3).recommendations =
        (generateCoachingPlanFromAnalysis a1 t1).recommendations ∧
      (generateCoachingPlanFromAnalysis a3 t3).resources =
        (generateCoachingPlanFromAnalysis a1 t1).resources ∧
      (generateCoachingPlanFromAnalysis a3 t3).quiz =
        (generateCoachingPlanFromAnalysis a1 t1).quiz ∧
      (generateCoachingPlanFromAnalysis a3 t3).completionCriteria =
        (generateCoachingPlanFromAnalysis a1 t1).completionCriteria) := by
  refine ⟨?_, ?_, ?_, ?_, ?_⟩
  · simp [generateCoachingPlanFromAnalysis, h]
  · simp [generateCoachingPlanFromAnalysis]
  · simp [generateCoachingPlanFromAnalysis]
  · simp [generateCoachingPlanFromAnalysis]
  · intro a3 t3
    refine ⟨?_, ?_, ?_, ?_⟩ <;> simp [generateCoachingPlanFromAnalysis]

/-- Witness for C9: two different analyses with the same overall score and
different transcripts produce identical coaching plans. -/
theorem c9_witness :
    sampleAnalysisHigh.overallScore = sampleAnalysisHighVariant.overallScore ∧
    generateCoachingPlanFromAnalysis sampleAnalysisHigh "Hello there." =
      generateCoachingPlanFromAnalysis sampleAnalysisHighVariant "A different call." :=
  ⟨rfl, (c9_coaching_score_noninterference sampleAnalysisHigh "Hello there."
    sampleAnalysisHighVariant "A different call." rfl).1⟩

/-- C10: an overall score of exactly 0 (or an absent one) is falsy, is
replaced by the default 75, and therefore receives the middle-tier
feedback. -/
theorem c10_zero_score_middle_tier (a : AnalysisResult) (t : String)
    (h : a.overallScore = some 0 ∨ a.overallScore = none) :
    (generateCoachingPlanFromAnalysis a t).feedback =
      "Good performance with specific areas for improvement." := by
  rcases h with h | h <;> norm_num [generateCoachingPlanFromAnalysis, jsNumOr, h]

/-- Witness for C10 at a concrete analysis with overall score 0. -/
theorem c10_witness :
    sampleAnalysisZero.overallScore = some 0 ∧
    (generateCoachingPlanFromAnalysis sampleAnalysisZero "Hi. Ok.").feedback =
      "Good performance with specific areas for improvement." :=
  ⟨rfl, c10_zero_score_middle_tier sampleAnalysisZero "Hi. Ok." (Or.inl rfl)⟩

/-- C3 (amended): when the external sentiment and toxicity calls fail,
`analyzeCall` still returns a complete analysis built from the fallback
values, and for a transcript with at least one non-blank sentence the
reported metrics are exactly `sentimentAnalysis = 70` and
`politeness = 80`. -/
theorem c3_fallback_scores (e1 e2 : String) (t : String) (h : sentencesOf t ≠ []) :
    (analyzeCall ⟨fun _ => .error e1, fun _ => .error e2⟩ t).map
      (fun a => (a.metrics.sentimentAnalysis, a.metrics.politeness)) =
      Except.ok (some 70, some 80) := by
  rcases hsplit : sentencesOf t with _ | ⟨x, xs⟩
  · exact absurd hsplit h
  · have hsent : analyzeSentiment (fun _ => .error e1) ((sentencesOf t).take 3) =
        .ok (((sentencesOf t).take 3).map (fun s => ⟨s, 7/10, 3/10⟩)) := by
      rw [hsplit]; rfl
    have htox : analyzeToxicity (fun _ => .error e2) ((sentencesOf t).take 3) =
        .ok (((sentencesOf t).take 3).map (fun s => ⟨s, 8/10⟩)) := by
      rw [hsplit]; rfl
    have htakene : (sentencesOf t).take 3 ≠ [] := by
      rw [hsplit]; simp
    simp only [analyzeCall, hsent, htox, Except.map]
    simp only [calculateOverallSentiment_fallback _ htakene,
      calculateOverallPoliteness_fallback _ htakene]

/-- Witness for C3 at a concrete two-sentence transcript. -/
theorem c3_witness :
    sentencesOf "Hi. Ok." ≠ [] ∧
    (analyzeCall ⟨fun _ => .error "down", fun _ => .error "down"⟩ "Hi. Ok.").map
      (fun a => (a.metrics.sentimentAnalysis, a.metrics.politeness)) =
      Except.ok (some 70, some 80) := by
  have hne : sentencesOf "Hi. Ok." ≠ [] := by decide
  exact ⟨hne, c3_fallback_scores "down" "down" "Hi. Ok." hne⟩

/-- Counterexample to C3 as stated: the transcript `"..."` is non-empty,
yet under total external failure the reported `sentimentAnalysis` and
`politeness` are `NaN` (modelled `none`), not 70 and 80 — the transcript
contains no non-blank sentence, so the fallback lists are empty and the
averages divide by zero. -/
theorem c3_counterexample :
    ("..." : String) ≠ "" ∧
    (analyzeCall failScoringEnv "...").map
      (fun a => (a.metrics.sentimentAnalysis, a.metrics.politeness)) =
      Except.ok (none, none) := by
  constructor
  · decide
  · with_unfolding_all rfl

/-- C1 (amended): within one run, persisted status values only move
strictly forward in the stage order or to `error`, and no completed stage is
revisited; the `generating-coaching` stage, however, is never persisted (it
is only published as a notification), so a successful run's persisted
statuses are uploaded, transcribing, transcribed, analyzing, analyzed,
completed. -/
theorem c1_status_forward_or_error (env : PipelineEnv) (init : CallState)
    (callId : String) (h0 : init.status = "uploaded") :
    chainOk specForwardStep (statusTrace env init callId) = true ∧
    "generating-coaching" ∉ statusTrace env init callId := by
  rcases hw : env.whisper with code | text
  · have h := processWrites_of_whisper_error env init callId code hw
    unfold statusTrace
    rw [h, h0]
    exact ⟨by decide, by decide⟩
  · have h := processWrites_of_whisper_ok env init callId text hw
    unfold statusTrace
    rw [h, h0]
    exact ⟨by decide, by decide⟩

/-- Witness for C1 (amended) on a concrete successful run. -/
theorem c1_witness :
    initialCall.status = "uploaded" ∧
    chainOk specForwardStep (statusTrace okPipelineEnv initialCall "call-1w") = true :=
  ⟨rfl, (c1_status_forward_or_error okPipelineEnv initialCall "call-1w" rfl).1⟩

/-- Counterexample to C1 as stated: on a successful run the persisted status
jumps from `analyzed` directly to `completed`, skipping the
`generating-coaching` stage of the claimed sequence, so the persisted
transitions do not all step to the immediately next stage. -/
theorem c1_counterexample :
    chainOk specAdjacentStep (statusTrace okPipelineEnv initialCall "call-1c") = false := by
  have h := processWrites_of_whisper_ok okPipelineEnv initialCall "call-1c" "Hi. Ok." rfl
  unfold statusTrace
  rw [h]
  decide

/-- C4: if the transcription call fails, the run persists the direct status
transition transcribing → error, and the Call's `transcript`, `analysis`,
`coachingPlan`, `performance` and `duration` are exactly as before the run —
only `status`, `error` and `processingHistory` change. -/
theorem c4_transcription_failure_frame (env : PipelineEnv) (init : CallState)
    (callId : String) (code : ℕ) (h0 : init.status = "uploaded")
    (h : env.whisper = .error code) :
    statusTrace env init callId = ["uploaded", "transcribing", "error"] ∧
    (processCallAsync env init callId).1.transcript = init.transcript ∧
    (processCallAsync env init callId).1.analysis = init.analysis ∧
    (processCallAsync env init callId).1.coachingPlan = init.coachingPlan ∧
    (processCallAsync env init callId).1.performance = init.performance ∧
    (processCallAsync env init callId).1.duration = init.duration := by
  refine ⟨?_, ?_, ?_, ?_, ?_, ?_⟩
  · unfold statusTrace
    rw [processWrites_of_whisper_error env init callId code h, h0]
    decide
  all_goals
    simp [processCallAsync, transcribeAudio, h, handleFailure, addProcessingStep,
      persistStatus]

/-- Witness for C4 on a concrete failing run. -/
theorem c4_witness :
    initialCall.status = "uploaded" ∧
    errorPipelineEnv.whisper = Except.error 500 ∧
    statusTrace errorPipelineEnv initialCall "call-4w" =
      ["uploaded", "transcribing", "error"] ∧
    (processCallAsync errorPipelineEnv initialCall "call-4w").1.analysis =
      initialCall.analysis := by
  have h := c4_transcription_failure_frame errorPipelineEnv initialCall "call-4w" 500 rfl rfl
  exact ⟨rfl, rfl, h.1, h.2.2.1⟩

/-- C7: on a stage failure the orchestrator appends a `failed`
processingHistory entry carrying the error, sets status to `error`,
overwrites the `error` field with `retryCount` incremented from any prior
value (1 when no prior error exists), and publishes an `error` event
carrying the failure message to the call-scoped topic. -/
theorem c7_stage_failure_handling (env : PipelineEnv) (init : CallState)
    (callId : String) (code : ℕ) (h : env.whisper = .error code) :
    (processCallAsync env init callId).1.processingHistory =
      init.processingHistory ++
        [⟨"upload", "completed", "File uploaded successfully", 0, false⟩,
         ⟨"transcribe", "started", "Starting transcription", 0, false⟩,
         ⟨"error", "failed", transcriptionErrorMessage code, 0, true⟩] ∧
    (processCallAsync env init callId).1.status = "error" ∧
    (init.error = none →
      (processCallAsync env init callId).1.error =
        some ⟨transcriptionErrorMessage code, "PROCESSING_ERROR", "processing", 1⟩) ∧
    (∀ e, init.error = some e →
      (processCallAsync env init callId).1.error =
        some ⟨transcriptionErrorMessage code, "PROCESSING_ERROR", "processing",
          e.retryCount + 1⟩) ∧
    (⟨callTopic callId, "error",
        "Processing failed: " ++ transcriptionErrorMessage code, none,
        some (transcriptionErrorMessage code)⟩ : SocketEvent) ∈
      (processCallAsync env init callId).2.2 := by
  refine ⟨?_, ?_, ?_, ?_, ?_⟩
  · simp [processCallAsync, transcribeAudio, h, handleFailure, addProcessingStep,
      persistStatus]
  · simp [processCallAsync, transcribeAudio, h, handleFailure, addProcessingStep,
      persistStatus]
  · intro he
    simp [processCallAsync, transcribeAudio, h, handleFailure, addProcessingStep,
      persistStatus, he]
  · intro e he
    simp [processCallAsync, transcribeAudio, h, handleFailure, addProcessingStep,
      persistStatus, he]
  · simp [processCallAsync, transcribeAudio, h, handleFailure, addProcessingStep,
      persistStatus]

/-- Witness for C7 on a concrete failing run with no prior error. -/
theorem c7_witness :
    errorPipelineEnv.whisper = Except.error 500 ∧
    initialCall.error = none ∧
    (processCallAsync errorPipelineEnv initialCall "call-7w").1.status = "error" ∧
    (processCallAsync errorPipelineEnv initialCall "call-7w").1.error =
      some ⟨transcriptionErrorMessage 500, "PROCESSING_ERROR", "processing", 1⟩ := by
  have h := c7_stage_failure_handling errorPipelineEnv initialCall "call-7w" 500 rfl
  exact ⟨rfl, rfl, h.2.1, h.2.2.1 rfl⟩

end CallQuality
